import Mathlib

/-!
Verification development for the phone-agent relay (`custom-phone-agent.py`).

The program bridges a Twilio media WebSocket and an OpenAI realtime socket:
it registers per-call settings in a process-wide map, relays audio frames in
both directions, accumulates a transcript, and on termination summarizes the
call and emails the summary.  Below we shallowly embed the pieces of the
program the claims are about: the base64 codec used by the outbound pump,
the session registry and connection phase of `media_stream`, the two pump
loops as a step function over an interleaving of parsed events, the
post-streaming straight-line body of `media_stream`, and the
`summarize_conversation` / `send_summary_email` adapters with their external
calls abstracted as oracles.
-/

/-! ## Base64 (as used by `base64.b64decode` / `base64.b64encode`)

Bytes are modelled as `Nat` values; well-formed bytes are `< 256`.
`b64decode` consumes alphabet characters four at a time with canonical
trailing `=` padding; input that is not a padded four-character grouping of
alphabet characters yields `none` (CPython raises `binascii.Error` there;
the code under study only ever decodes, then re-encodes, alphabet-only
data).  `b64encode` produces the canonical padded encoding. -/

def b64val : Char → Option Nat
  | 'A' => some 0  | 'B' => some 1  | 'C' => some 2  | 'D' => some 3
  | 'E' => some 4  | 'F' => some 5  | 'G' => some 6  | 'H' => some 7
  | 'I' => some 8  | 'J' => some 9  | 'K' => some 10 | 'L' => some 11
  | 'M' => some 12 | 'N' => some 13 | 'O' => some 14 | 'P' => some 15
  | 'Q' => some 16 | 'R' => some 17 | 'S' => some 18 | 'T' => some 19
  | 'U' => some 20 | 'V' => some 21 | 'W' => some 22 | 'X' => some 23
  | 'Y' => some 24 | 'Z' => some 25 | 'a' => some 26 | 'b' => some 27
  | 'c' => some 28 | 'd' => some 29 | 'e' => some 30 | 'f' => some 31
  | 'g' => some 32 | 'h' => some 33 | 'i' => some 34 | 'j' => some 35
  | 'k' => some 36 | 'l' => some 37 | 'm' => some 38 | 'n' => some 39
  | 'o' => some 40 | 'p' => some 41 | 'q' => some 42 | 'r' => some 43
  | 's' => some 44 | 't' => some 45 | 'u' => some 46 | 'v' => some 47
  | 'w' => some 48 | 'x' => some 49 | 'y' => some 50 | 'z' => some 51
  | '0' => some 52 | '1' => some 53 | '2' => some 54 | '3' => some 55
  | '4' => some 56 | '5' => some 57 | '6' => some 58 | '7' => some 59
  | '8' => some 60 | '9' => some 61 | '+' => some 62 | '/' => some 63
  | _ => none

def b64char : Nat → Char
  | 0 => 'A'  | 1 => 'B'  | 2 => 'C'  | 3 => 'D'
  | 4 => 'E'  | 5 => 'F'  | 6 => 'G'  | 7 => 'H'
  | 8 => 'I'  | 9 => 'J'  | 10 => 'K' | 11 => 'L'
  | 12 => 'M' | 13 => 'N' | 14 => 'O' | 15 => 'P'
  | 16 => 'Q' | 17 => 'R' | 18 => 'S' | 19 => 'T'
  | 20 => 'U' | 21 => 'V' | 22 => 'W' | 23 => 'X'
  | 24 => 'Y' | 25 => 'Z' | 26 => 'a' | 27 => 'b'
  | 28 => 'c' | 29 => 'd' | 30 => 'e' | 31 => 'f'
  | 32 => 'g' | 33 => 'h' | 34 => 'i' | 35 => 'j'
  | 36 => 'k' | 37 => 'l' | 38 => 'm' | 39 => 'n'
  | 40 => 'o' | 41 => 'p' | 42 => 'q' | 43 => 'r'
  | 44 => 's' | 45 => 't' | 46 => 'u' | 47 => 'v'
  | 48 => 'w' | 49 => 'x' | 50 => 'y' | 51 => 'z'
  | 52 => '0' | 53 => '1' | 54 => '2' | 55 => '3'
  | 56 => '4' | 57 => '5' | 58 => '6' | 59 => '7'
  | 60 => '8' | 61 => '9' | 62 => '+' | 63 => '/'
  | _ => '?'

def b64encode : List Nat → List Char
  | [] => []
  | [a] => [b64char (a / 4), b64char (a % 4 * 16), '=', '=']
  | [a, b] => [b64char (a / 4), b64char (a % 4 * 16 + b / 16), b64char (b % 16 * 4), '=']
  | a :: b :: c :: rest =>
    b64char (a / 4) :: b64char (a % 4 * 16 + b / 16) ::
    b64char (b % 16 * 4 + c / 64) :: b64char (c % 64) :: b64encode rest

def b64decode : List Char → Option (List Nat)
  | [] => some []
  | c1 :: c2 :: c3 :: c4 :: rest =>
    match b64val c1, b64val c2 with
    | some v1, some v2 =>
      if c3 = '=' then
        if c4 = '=' ∧ rest = [] then some [v1 * 4 + v2 / 16] else none
      else
        match b64val c3 with
        | some v3 =>
          if c4 = '=' then
            if rest = [] then some [v1 * 4 + v2 / 16, v2 % 16 * 16 + v3 / 4] else none
          else
            match b64val c4 with
            | some v4 =>
              (b64decode rest).map
                (fun bs => (v1 * 4 + v2 / 16) :: (v2 % 16 * 16 + v3 / 4) :: (v3 % 4 * 64 + v4) :: bs)
            | none => none
        | none => none
    | _, _ => none
  | _ => none

set_option maxHeartbeats 1600000 in
theorem b64val_b64char_fin : ∀ i : Fin 64, b64val (b64char i.val) = some i.val := by decide

theorem b64val_b64char (v : Nat) (h : v < 64) : b64val (b64char v) = some v :=
  b64val_b64char_fin ⟨v, h⟩

theorem b64char_ne_pad (v : Nat) (h : v < 64) : b64char v ≠ '=' := by
  intro he
  have h1 := b64val_b64char v h
  have h2 : b64val '=' = none := rfl
  rw [he, h2] at h1
  exact Option.noConfusion h1

theorem b64_roundtrip (bs : List Nat) (hb : ∀ x ∈ bs, x < 256) :
    b64decode (b64encode bs) = some bs := by
  induction bs using b64encode.induct with
  | case1 => simp [b64encode, b64decode]
  | case2 a =>
    have ha : a < 256 := hb a (by simp)
    have h1 := b64val_b64char (a / 4) (by omega)
    have h2 := b64val_b64char (a % 4 * 16) (by omega)
    simp only [b64encode, b64decode, h1, h2]
    simp only [and_self, if_true, Option.some.injEq, List.cons.injEq, and_true]
    omega
  | case3 a b =>
    have ha : a < 256 := hb a (by simp)
    have hbb : b < 256 := hb b (by simp)
    have h1 := b64val_b64char (a / 4) (by omega)
    have h2 := b64val_b64char (a % 4 * 16 + b / 16) (by omega)
    have h3 := b64val_b64char (b % 16 * 4) (by omega)
    have hne : b64char (b % 16 * 4) ≠ '=' := b64char_ne_pad _ (by omega)
    simp only [b64encode, b64decode, h1, h2, h3, if_neg hne]
    simp only [if_true, Option.some.injEq, List.cons.injEq, and_true]
    exact ⟨by omega, by omega⟩
  | case4 a b c rest ih =>
    have ha : a < 256 := hb a (by simp)
    have hbb : b < 256 := hb b (by simp)
    have hc : c < 256 := hb c (by simp)
    have hrest : ∀ x ∈ rest, x < 256 := fun x hx => hb x (by simp [hx])
    have h1 := b64val_b64char (a / 4) (by omega)
    have h2 := b64val_b64char (a % 4 * 16 + b / 16) (by omega)
    have h3 := b64val_b64char (b % 16 * 4 + c / 64) (by omega)
    have h4 := b64val_b64char (c % 64) (by omega)
    have hne3 : b64char (b % 16 * 4 + c / 64) ≠ '=' := b64char_ne_pad _ (by omega)
    have hne4 : b64char (c % 64) ≠ '=' := b64char_ne_pad _ (by omega)
    simp only [b64encode, b64decode, h1, h2, h3, h4, if_neg hne3, if_neg hne4,
      ih hrest, Option.map_some', Option.some.injEq, List.cons.injEq, and_true]
    exact ⟨by omega, by omega, by omega⟩

set_option maxHeartbeats 1600000 in
/-- Values produced by `b64val` are sextets, i.e. `< 64`. -/
theorem b64val_lt {c : Char} {v : Nat} (h : b64val c = some v) : v < 64 := by
  unfold b64val at h
  split at h <;> first | (injection h with h; omega) | exact Option.noConfusion h

/-- Every byte produced by `b64decode` is `< 256`. -/
theorem b64decode_lt {d : List Char} {bs : List Nat} (h : b64decode d = some bs) :
    ∀ x ∈ bs, x < 256 := by
  induction d using b64decode.induct generalizing bs with
  | case1 =>
    simp only [b64decode, Option.some.injEq] at h
    subst h
    simp
  | case2 c1 c2 c4 rest v1 v2 hv2 hv1 hpad =>
    obtain ⟨h4, hr⟩ := hpad
    subst h4
    subst hr
    simp [b64decode, hv1, hv2] at h
    have l1 := b64val_lt hv1
    have l2 := b64val_lt hv2
    intro x hx
    rw [← h] at hx
    rw [List.mem_singleton] at hx
    subst hx
    omega
  | case3 c1 c2 c4 rest v1 v2 hv2 hv1 hpad =>
    simp [b64decode, hv1, hv2, hpad] at h
  | case4 c1 c2 c3 v1 v2 hv2 hv1 hc3 v3 hv3 =>
    simp [b64decode, hv1, hv2, hc3, hv3] at h
    have l1 := b64val_lt hv1
    have l2 := b64val_lt hv2
    have l3 := b64val_lt hv3
    intro x hx
    rw [← h] at hx
    simp only [List.mem_cons, List.not_mem_nil, or_false, List.mem_singleton] at hx
    rcases hx with h | h <;> omega
  | case5 c1 c2 c3 rest v1 v2 hv2 hv1 hc3 v3 hv3 hrne =>
    simp [b64decode, hv1, hv2, hc3, hv3, hrne] at h
  | case6 c1 c2 c3 c4 rest v1 v2 hv2 hv1 hc3 v3 hv3 hc4 v4 hv4 ih =>
    rw [show b64decode (c1 :: c2 :: c3 :: c4 :: rest) =
      (b64decode rest).map (fun bs =>
        (v1 * 4 + v2 / 16) :: (v2 % 16 * 16 + v3 / 4) :: (v3 % 4 * 64 + v4) :: bs) by
      simp [b64decode, hv1, hv2, hc3, hv3, hc4, hv4]] at h
    cases hrec : b64decode rest with
    | none =>
      rw [hrec] at h
      simp at h
    | some bs0 =>
      rw [hrec] at h
      simp only [Option.map_some', Option.some.injEq] at h
      subst h
      have l1 := b64val_lt hv1
      have l2 := b64val_lt hv2
      have l3 := b64val_lt hv3
      have l4 := b64val_lt hv4
      intro x hx
      simp only [List.mem_cons] at hx
      rcases hx with h | h | h | h
      · omega
      · omega
      · omega
      · exact ih hrec x h
  | case7 c1 c2 c3 c4 rest v1 v2 hv2 hv1 hc3 v3 hv3 hc4 hv4 =>
    simp [b64decode, hv1, hv2, hc3, hv3, hc4, hv4] at h
  | case8 c1 c2 c3 c4 rest v1 v2 hv2 hv1 hc3 hv3 =>
    simp [b64decode, hv1, hv2, hc3, hv3] at h
  | case9 c1 c2 c3 c4 rest hcontr =>
    cases hb1 : b64val c1 with
    | none => simp [b64decode, hb1] at h
    | some v1 =>
      cases hb2 : b64val c2 with
      | none => simp [b64decode, hb1, hb2] at h
      | some v2 => exact (hcontr v1 v2 hb1 hb2).elim
  | case10 t hnil hcons =>
    match t, hnil, hcons with
    | [], hnil, _ => exact (hnil rfl).elim
    | [a], _, _ => simp [b64decode] at h
    | [a, b], _, _ => simp [b64decode] at h
    | [a, b, c], _, _ => simp [b64decode] at h
    | a :: b :: c :: e :: rest, _, hcons => exact (hcons a b c e rest rfl).elim

/-! ## Session registry and the connection phase of `media_stream`

`STREAMS_SETTINGS` is a process-wide dict from session id to the settings
stored by `call_custom` (lines 55-61).  We model it as an association list
with `dict.get` semantics.  `media_stream` (lines 96-122) looks the session
up, refuses the connection when the lookup fails, otherwise accepts the
inbound socket and attempts the OpenAI handshake; the handshake outcome is
abstracted as a boolean oracle. -/

structure Settings where
  system_message : String
  voice : String
  email : String
deriving DecidableEq, Repr

def lookupSettings (reg : List (String × Settings)) (sid : String) : Option Settings :=
  (reg.find? (fun p => p.1 = sid)).map (fun p => p.2)

/-- One outbound message on the OpenAI socket, with the JSON fields the
program populates (lines 137-140 and 172-191). -/
inductive ModelMsg
  | sessionUpdate (voice instructions turn_detection input_audio_format
      output_audio_format transcription_model : String)
  | convItemCreate (role text : String)
  | responseCreate
  | appendAudio (audio : List Char)
deriving DecidableEq, Repr

/-- The three initialization messages sent after a successful handshake
(lines 172-191), in program order. -/
def initMessages (st : Settings) : List ModelMsg :=
  [ .sessionUpdate st.voice st.system_message "server_vad" "g711_ulaw" "g711_ulaw" "whisper-1",
    .convItemCreate "user" "Please begin by greeting the user.",
    .responseCreate ]

/-- Observable effects of the connection phase of `media_stream`
(lines 96-224): whether the inbound socket was accepted or closed, whether
an OpenAI connection was attempted/established, the initialization messages
sent, whether the streaming/post-processing stages were reached, and the
registry as left behind by the handler. -/
structure ConnectTrace where
  inboundAccepted : Bool
  inboundClosed : Bool
  modelConnectAttempted : Bool
  modelSocketOpened : Bool
  initMsgs : List ModelMsg
  streamingStarted : Bool
  postProcessingRun : Bool
  registryAfter : List (String × Settings)
deriving DecidableEq, Repr

/-- Straight-line embedding of `media_stream`'s connection phase: lookup
(line 99), refusal (lines 100-103), accept (line 105), OpenAI handshake
(lines 109-122, outcome abstracted as `handshakeOk`), then the
initialization and streaming stages.  The handler never writes to
`STREAMS_SETTINGS`, so `registryAfter` is the unchanged input registry. -/
def media_stream_connect (reg : List (String × Settings)) (sid : String)
    (handshakeOk : Bool) : ConnectTrace :=
  match lookupSettings reg sid with
  | none =>
    { inboundAccepted := false, inboundClosed := true,
      modelConnectAttempted := false, modelSocketOpened := false,
      initMsgs := [], streamingStarted := false, postProcessingRun := false,
      registryAfter := reg }
  | some st =>
    if handshakeOk then
      { inboundAccepted := true, inboundClosed := false,
        modelConnectAttempted := true, modelSocketOpened := true,
        initMsgs := initMessages st, streamingStarted := true,
        postProcessingRun := true, registryAfter := reg }
    else
      { inboundAccepted := true, inboundClosed := true,
        modelConnectAttempted := true, modelSocketOpened := false,
        initMsgs := [], streamingStarted := false, postProcessingRun := false,
        registryAfter := reg }

/-! ## The two pump loops

`twilio_to_openai` (lines 127-142) and `openai_to_twilio` (lines 144-168)
run concurrently and share the mutable `stream_sid`.  We model their joint
execution as a fold over an interleaving of already-parsed events.  A
Twilio `start` event stores the stream id; a `media` event forwards its
base64 payload verbatim inside an `input_audio_buffer.append` message.  An
OpenAI transcription-completed / transcript-done event appends a tagged
transcript line; an `audio.delta` event with a truthy (non-empty) delta is
base64-decoded and re-encoded, then sent as a Twilio `media` frame tagged
with the current `stream_sid`.  A failing `base64.b64decode` raises inside
`openai_to_twilio`, ending that pump (`openaiStopped`); Twilio-side events
appearing later in the interleaving model frames the other pump still
processes before cancellation lands. -/

inductive TwilioEvt
  | start (streamSid : String)
  | media (payload : List Char)
  | otherEvent
deriving DecidableEq, Repr

inductive OpenAIEvt
  | userTranscriptCompleted (transcript : String)
  | assistantTranscriptDone (transcript : String)
  | audioDelta (delta : List Char)
  | otherType
deriving DecidableEq, Repr

/-- An outbound Twilio frame `{event: "media", streamSid, media: {payload}}`
(lines 162-166).  `streamSid` is `none` until a `start` event is seen. -/
structure MediaFrame where
  streamSid : Option String
  payload : List Char
deriving DecidableEq, Repr

structure RelayState where
  stream_sid : Option String
  transcript : List String
  toOpenAI : List (List Char)
  toTwilio : List MediaFrame
  openaiStopped : Bool
deriving DecidableEq, Repr

def initialRelayState : RelayState :=
  { stream_sid := none, transcript := [], toOpenAI := [], toTwilio := [],
    openaiStopped := false }

def stepTwilio (s : RelayState) : TwilioEvt → RelayState
  | .start sid => { s with stream_sid := some sid }
  | .media p => { s with toOpenAI := s.toOpenAI ++ [p] }
  | .otherEvent => s

def stepOpenAI (s : RelayState) : OpenAIEvt → RelayState
  | .userTranscriptCompleted t => { s with transcript := s.transcript ++ ["user: " ++ t] }
  | .assistantTranscriptDone t => { s with transcript := s.transcript ++ ["assistant: " ++ t] }
  | .audioDelta d =>
    if d = [] then s
    else
      match b64decode d with
      | some chunk =>
        { s with toTwilio := s.toTwilio ++ [{ streamSid := s.stream_sid,
                                              payload := b64encode chunk }] }
      | none => { s with openaiStopped := true }
  | .otherType => s

def relayStep (s : RelayState) (e : TwilioEvt ⊕ OpenAIEvt) : RelayState :=
  match e with
  | .inl te => stepTwilio s te
  | .inr oe => if s.openaiStopped then s else stepOpenAI s oe

def runRelay (es : List (TwilioEvt ⊕ OpenAIEvt)) : RelayState :=
  es.foldl relayStep initialRelayState

/-- The payload a Twilio event contributes to the OpenAI socket: `media`
payloads are forwarded verbatim (lines 136-140). -/
def inPayload : TwilioEvt ⊕ OpenAIEvt → Option (List Char)
  | .inl (.media p) => some p
  | _ => none

/-- The payload an OpenAI event contributes to the Twilio socket: a truthy
`delta` is decoded and re-encoded (lines 159-166). -/
def outPayload : TwilioEvt ⊕ OpenAIEvt → Option (List Char)
  | .inr (.audioDelta d) => if d = [] then none else (b64decode d).map b64encode
  | _ => none

/-- The transcript line an OpenAI event contributes (lines 151-157). -/
def entryOf : TwilioEvt ⊕ OpenAIEvt → Option String
  | .inr (.userTranscriptCompleted t) => some ("user: " ++ t)
  | .inr (.assistantTranscriptDone t) => some ("assistant: " ++ t)
  | _ => none

/-- Every `audio.delta` in the interleaving carries decodable base64. -/
def deltasOk (es : List (TwilioEvt ⊕ OpenAIEvt)) : Bool :=
  es.all fun e =>
    match e with
    | .inr (.audioDelta d) => (b64decode d).isSome
    | _ => true

/-- No Twilio `start` event occurs in the interleaving. -/
def noStart (es : List (TwilioEvt ⊕ OpenAIEvt)) : Bool :=
  es.all fun e =>
    match e with
    | .inl (.start _) => false
    | _ => true

/-! ## Post-processing: `summarize_conversation` and `send_summary_email`

The OpenAI chat call inside `summarize_conversation` (lines 241-247) and
the SendGrid delivery inside `send_summary_email` (lines 268-270) are
external; we abstract them as oracles (`llm`, `deliver`).  `os.getenv`
yields `None` for unset variables and Python treats both `None` and the
empty string as falsy in the config check on line 258. -/

/-- Python truthiness of an optional environment string: falsy when unset
or empty. -/
def strFalsy : Option String → Bool
  | none => true
  | some s => s = ""

/-- Python's `not conv.strip()`: true exactly when every character is
whitespace (in particular when `conv` is empty). -/
def stripIsEmpty (conv : String) : Bool :=
  conv.toList.all Char.isWhitespace

/-- `summarize_conversation` (lines 230-254): an empty (whitespace-only)
transcript short-circuits to the fixed placeholder without calling the
LLM; otherwise the LLM result's content is stripped and returned, and an
LLM exception propagates to the caller.  Returns the result together with
whether the LLM was invoked. -/
def summarize_conversation (llm : String → Except String String) (conv : String) :
    Except String String × Bool :=
  if stripIsEmpty conv then (.ok "No conversation content to summarize.", false)
  else
    match llm conv with
    | .ok content => (.ok content.trim, true)
    | .error e => (.error e, true)

structure EmailConfig where
  sendgridApiKey : Option String
  emailFrom : Option String
  summaryTemplateId : Option String
deriving DecidableEq, Repr

/-- Result of `send_summary_email`: whether delivery was attempted, and
the function's outcome as seen by its caller.  The Python function returns
`None` on every path — missing configuration just logs a warning (lines
258-260) and a SendGrid exception is caught and logged (lines 267-272) —
so `outcome` is the caller-visible termination: `ok` or a raised error. -/
structure EmailResult where
  attempted : Bool
  outcome : Except String Unit
deriving Repr

def missingEmailConfig (cfg : EmailConfig) : Bool :=
  strFalsy cfg.sendgridApiKey || strFalsy cfg.emailFrom || strFalsy cfg.summaryTemplateId

/-- `send_summary_email` (lines 256-272), with SendGrid delivery abstracted
as `deliver`. -/
def send_summary_email (cfg : EmailConfig) (deliver : String → String → Except String Nat)
    (to_email summary : String) : EmailResult :=
  if missingEmailConfig cfg then
    { attempted := false, outcome := .ok () }
  else
    match deliver to_email summary with
    | .ok _ => { attempted := true, outcome := .ok () }
    | .error _ => { attempted := true, outcome := .ok () }

/-- Observable effects of the post-streaming tail of `media_stream`
(lines 207-224): the summary value after the try/except on lines 210-215,
whether the LLM was invoked, the exact arguments passed to
`send_summary_email` on line 218, and whether delivery was attempted. -/
structure PostTrace where
  summary : String
  llmCalled : Bool
  emailArgs : String × String
  emailAttempted : Bool
deriving DecidableEq, Repr

/-- Lines 207-221 of `media_stream`: join the transcript with newlines,
summarize (substituting the fixed failure placeholder when
`summarize_conversation` raises), then call `send_summary_email` with the
session's email and the summary. -/
def postProcess (llm : String → Except String String) (cfg : EmailConfig)
    (deliver : String → String → Except String Nat) (st : Settings)
    (transcript : List String) : PostTrace :=
  let full_text := String.intercalate "\n" transcript
  let sres := summarize_conversation llm full_text
  let summary :=
    match sres.1 with
    | .ok s => s
    | .error _ => "Sorry, I couldn't generate a summary."
  let er := send_summary_email cfg deliver st.email summary
  { summary := summary, llmCalled := sres.2,
    emailArgs := (st.email, summary), emailAttempted := er.attempted }

/-! ## The post-streaming control flow of `media_stream`

Lines 194-224 are straight-line: `asyncio.wait(..., FIRST_COMPLETED)`,
`task.cancel()` on the pending pump, close the OpenAI socket, summarize,
email, return.  We record this sequence of actions literally; the action
vocabulary also contains `awaitPendingStop` (an `await` of the cancelled
task) precisely so that its absence from the program's sequence is a
statement about the code rather than about the vocabulary. -/

inductive RelayAction
  | sendInitMessages
  | startPumpTasks
  | awaitFirstCompleted
  | cancelPending
  | awaitPendingStop
  | closeModelSocket
  | summarizeStep
  | notifyStep
  | returnToCaller
deriving DecidableEq, Repr

/-- The action sequence of `media_stream` lines 172-224, in program
order. -/
def mediaStreamBody : List RelayAction :=
  [ .sendInitMessages, .startPumpTasks, .awaitFirstCompleted, .cancelPending,
    .closeModelSocket, .summarizeStep, .notifyStep, .returnToCaller ]

/-- The inbound pump appends to `toOpenAI` exactly the `media` payloads of
the interleaving, verbatim and in arrival order. -/
theorem foldl_toOpenAI (es : List (TwilioEvt ⊕ OpenAIEvt)) :
    ∀ s : RelayState,
      (es.foldl relayStep s).toOpenAI = s.toOpenAI ++ es.filterMap inPayload := by
  induction es with
  | nil => intro s; simp
  | cons e es ih =>
    intro s
    rw [List.foldl_cons, ih, List.filterMap_cons]
    rcases e with te | oe
    · cases te <;> simp [relayStep, stepTwilio, inPayload]
    · cases hst : s.openaiStopped with
      | true => simp [relayStep, hst, inPayload]
      | false =>
        cases oe with
        | userTranscriptCompleted t => simp [relayStep, hst, stepOpenAI, inPayload]
        | assistantTranscriptDone t => simp [relayStep, hst, stepOpenAI, inPayload]
        | audioDelta d =>
          simp only [relayStep, hst, Bool.false_eq_true, if_false, stepOpenAI, inPayload]
          split
          · simp
          · split <;> simp
        | otherType => simp [relayStep, hst, stepOpenAI, inPayload]


/-- Unfold `deltasOk` to a membership statement. -/
theorem deltasOk_mem {es : List (TwilioEvt ⊕ OpenAIEvt)} (h : deltasOk es = true) :
    ∀ d, (Sum.inr (OpenAIEvt.audioDelta d) : TwilioEvt ⊕ OpenAIEvt) ∈ es →
      (b64decode d).isSome = true := by
  intro d hd
  simpa using List.all_eq_true.mp h _ hd

/-- Unfold `noStart` to a membership statement. -/
theorem noStart_mem {es : List (TwilioEvt ⊕ OpenAIEvt)} (h : noStart es = true) :
    ∀ sid, (Sum.inl (TwilioEvt.start sid) : TwilioEvt ⊕ OpenAIEvt) ∉ es := by
  intro sid hd
  simpa using List.all_eq_true.mp h _ hd

/-- When every delta decodes, the outbound pump appends to `toTwilio`
exactly the re-encoded truthy deltas, in arrival order. -/
theorem foldl_toTwilio (es : List (TwilioEvt ⊕ OpenAIEvt)) :
    ∀ s : RelayState,
      (∀ d, (Sum.inr (OpenAIEvt.audioDelta d) : TwilioEvt ⊕ OpenAIEvt) ∈ es →
        (b64decode d).isSome = true) →
      s.openaiStopped = false →
      (es.foldl relayStep s).toTwilio.map MediaFrame.payload
        = s.toTwilio.map MediaFrame.payload ++ es.filterMap outPayload := by
  induction es with
  | nil => intro s _ _; simp
  | cons e es ih =>
    intro s hok hst
    have hokes : ∀ d, (Sum.inr (OpenAIEvt.audioDelta d) : TwilioEvt ⊕ OpenAIEvt) ∈ es →
        (b64decode d).isSome = true :=
      fun d hd => hok d (List.mem_cons_of_mem _ hd)
    rw [List.foldl_cons, List.filterMap_cons]
    rcases e with te | oe
    · rw [ih _ hokes (by cases te <;> simp [relayStep, stepTwilio, hst])]
      cases te <;> simp [relayStep, stepTwilio, outPayload]
    · cases oe with
      | userTranscriptCompleted t =>
        rw [ih _ hokes (by simp [relayStep, hst, stepOpenAI])]
        simp [relayStep, hst, stepOpenAI, outPayload]
      | assistantTranscriptDone t =>
        rw [ih _ hokes (by simp [relayStep, hst, stepOpenAI])]
        simp [relayStep, hst, stepOpenAI, outPayload]
      | audioDelta d =>
        have hd : (b64decode d).isSome = true := hok d (List.mem_cons_self _ _)
        obtain ⟨chunk, hchunk⟩ := Option.isSome_iff_exists.mp hd
        rcases hnil : d with _ | ⟨c, cs⟩
        · rw [ih _ hokes (by simp [relayStep, hst, stepOpenAI])]
          simp [relayStep, hst, stepOpenAI, outPayload]
        · rw [hnil] at hchunk
          rw [ih _ hokes (by simp [relayStep, hst, stepOpenAI, hchunk])]
          simp [relayStep, hst, stepOpenAI, outPayload, hchunk, List.append_assoc]
      | otherType =>
        rw [ih _ hokes (by simp [relayStep, hst, stepOpenAI])]
        simp [relayStep, hst, stepOpenAI, outPayload]

/-- When every delta decodes, transcript lines are appended exactly for
the completion events, tagged and in arrival order. -/
theorem foldl_transcript (es : List (TwilioEvt ⊕ OpenAIEvt)) :
    ∀ s : RelayState,
      (∀ d, (Sum.inr (OpenAIEvt.audioDelta d) : TwilioEvt ⊕ OpenAIEvt) ∈ es →
        (b64decode d).isSome = true) →
      s.openaiStopped = false →
      (es.foldl relayStep s).transcript = s.transcript ++ es.filterMap entryOf := by
  induction es with
  | nil => intro s _ _; simp
  | cons e es ih =>
    intro s hok hst
    have hokes : ∀ d, (Sum.inr (OpenAIEvt.audioDelta d) : TwilioEvt ⊕ OpenAIEvt) ∈ es →
        (b64decode d).isSome = true :=
      fun d hd => hok d (List.mem_cons_of_mem _ hd)
    rw [List.foldl_cons, List.filterMap_cons]
    rcases e with te | oe
    · rw [ih _ hokes (by cases te <;> simp [relayStep, stepTwilio, hst])]
      cases te <;> simp [relayStep, stepTwilio, entryOf]
    · cases oe with
      | userTranscriptCompleted t =>
        rw [ih _ hokes (by simp [relayStep, hst, stepOpenAI])]
        simp [relayStep, hst, stepOpenAI, entryOf, List.append_assoc]
      | assistantTranscriptDone t =>
        rw [ih _ hokes (by simp [relayStep, hst, stepOpenAI])]
        simp [relayStep, hst, stepOpenAI, entryOf, List.append_assoc]
      | audioDelta d =>
        have hd : (b64decode d).isSome = true := hok d (List.mem_cons_self _ _)
        obtain ⟨chunk, hchunk⟩ := Option.isSome_iff_exists.mp hd
        rcases hnil : d with _ | ⟨c, cs⟩
        · rw [ih _ hokes (by simp [relayStep, hst, stepOpenAI])]
          simp [relayStep, hst, stepOpenAI, entryOf]
        · rw [hnil] at hchunk
          rw [ih _ hokes (by simp [relayStep, hst, stepOpenAI, hchunk])]
          simp [relayStep, hst, stepOpenAI, entryOf, hchunk]
      | otherType =>
        rw [ih _ hokes (by simp [relayStep, hst, stepOpenAI])]
        simp [relayStep, hst, stepOpenAI, entryOf]

/-- With no `start` event in the interleaving, `stream_sid` stays unset and
every forwarded outbound frame carries `streamSid = none`. -/
theorem foldl_sid_none (es : List (TwilioEvt ⊕ OpenAIEvt)) :
    ∀ s : RelayState,
      (∀ sid, (Sum.inl (TwilioEvt.start sid) : TwilioEvt ⊕ OpenAIEvt) ∉ es) →
      s.stream_sid = none →
      (∀ f ∈ s.toTwilio, f.streamSid = none) →
      ∀ f ∈ (es.foldl relayStep s).toTwilio, f.streamSid = none := by
  induction es with
  | nil => intro s _ hsid hinv; simpa using hinv
  | cons e es ih =>
    intro s hns hsid hinv
    have hnses : ∀ sid, (Sum.inl (TwilioEvt.start sid) : TwilioEvt ⊕ OpenAIEvt) ∉ es :=
      fun sid hd => hns sid (List.mem_cons_of_mem _ hd)
    rw [List.foldl_cons]
    refine ih _ hnses ?_ ?_
    · rcases e with te | oe
      · cases te with
        | start sid => exact absurd (List.mem_cons_self _ _) (hns sid)
        | media p => simpa [relayStep, stepTwilio] using hsid
        | otherEvent => simpa [relayStep, stepTwilio] using hsid
      · cases hst : s.openaiStopped with
        | true => simpa [relayStep, hst] using hsid
        | false =>
          cases oe with
          | userTranscriptCompleted t => simpa [relayStep, hst, stepOpenAI] using hsid
          | assistantTranscriptDone t => simpa [relayStep, hst, stepOpenAI] using hsid
          | audioDelta d =>
            simp only [relayStep, hst, Bool.false_eq_true, if_false, stepOpenAI]
            split
            · exact hsid
            · split <;> simpa using hsid
          | otherType => simpa [relayStep, hst, stepOpenAI] using hsid
    · rcases e with te | oe
      · cases te with
        | start sid => exact absurd (List.mem_cons_self _ _) (hns sid)
        | media p => simpa [relayStep, stepTwilio] using hinv
        | otherEvent => simpa [relayStep, stepTwilio] using hinv
      · cases hst : s.openaiStopped with
        | true => simpa [relayStep, hst] using hinv
        | false =>
          cases oe with
          | userTranscriptCompleted t => simpa [relayStep, hst, stepOpenAI] using hinv
          | assistantTranscriptDone t => simpa [relayStep, hst, stepOpenAI] using hinv
          | audioDelta d =>
            simp only [relayStep, hst, Bool.false_eq_true, if_false, stepOpenAI]
            split
            · exact hinv
            · split
              · intro f hf
                rcases List.mem_append.mp hf with hmem | hmem
                · exact hinv f hmem
                · rw [List.mem_singleton] at hmem
                  subst hmem
                  exact hsid
              · exact hinv
          | otherType => simpa [relayStep, hst, stepOpenAI] using hinv

/-! ## Concrete demonstration values used by witnesses and counterexamples -/

def demoSettings : Settings :=
  { system_message := "Be friendly", voice := "alloy", email := "a@example.com" }

def demoRegistry : List (String × Settings) := [("abc123", demoSettings)]

def demoInterleaving : List (TwilioEvt ⊕ OpenAIEvt) :=
  [ .inl (.start "MZ123"), .inl (.media "QUJD".toList),
    .inr (.audioDelta "AAAA".toList), .inl (.media "eHl6".toList) ]

def demoTranscriptEvents : List (TwilioEvt ⊕ OpenAIEvt) :=
  [ .inr (.userTranscriptCompleted "Hello"), .inr (.assistantTranscriptDone "Hi there") ]

def missingKeyConfig : EmailConfig :=
  { sendgridApiKey := none, emailFrom := some "from@x.test", summaryTemplateId := some "tid" }

def fullEmailConfig : EmailConfig :=
  { sendgridApiKey := some "sg-key", emailFrom := some "from@x.test",
    summaryTemplateId := some "tid" }

/-! ## Claims -/

/-- C2: for a session id never registered, `media_stream` closes the inbound
socket without accepting it; the OpenAI socket is never opened (not even
attempted), no initialization messages are sent, and neither streaming nor
the summarize/notify post-processing stage is reached. -/
theorem C2_unregistered_session_refused (reg : List (String × Settings)) (sid : String)
    (hs : Bool) (h : lookupSettings reg sid = none) :
    (media_stream_connect reg sid hs).inboundClosed = true ∧
    (media_stream_connect reg sid hs).inboundAccepted = false ∧
    (media_stream_connect reg sid hs).modelConnectAttempted = false ∧
    (media_stream_connect reg sid hs).modelSocketOpened = false ∧
    (media_stream_connect reg sid hs).initMsgs = [] ∧
    (media_stream_connect reg sid hs).streamingStarted = false ∧
    (media_stream_connect reg sid hs).postProcessingRun = false := by
  simp [media_stream_connect, h]

/-- C2 witness: the empty registry refuses session id "nope". -/
theorem C2_unregistered_session_refused_witness :
    (media_stream_connect [] "nope" true).inboundClosed = true ∧
    (media_stream_connect [] "nope" true).inboundAccepted = false ∧
    (media_stream_connect [] "nope" true).modelConnectAttempted = false ∧
    (media_stream_connect [] "nope" true).modelSocketOpened = false ∧
    (media_stream_connect [] "nope" true).initMsgs = [] ∧
    (media_stream_connect [] "nope" true).streamingStarted = false ∧
    (media_stream_connect [] "nope" true).postProcessingRun = false :=
  C2_unregistered_session_refused [] "nope" true rfl

/-- C6: for a registered session and a successful handshake, the relay sends
exactly three initialization messages in order: the session configuration
carrying the registered voice and instructions, server-driven turn
detection, g711_ulaw audio in both directions and whisper-1 input
transcription; then the synthetic greeting request; then the
response-generation trigger. -/
theorem C6_three_init_messages (reg : List (String × Settings)) (sid : String)
    (st : Settings) (h : lookupSettings reg sid = some st) :
    (media_stream_connect reg sid true).initMsgs =
      [ ModelMsg.sessionUpdate st.voice st.system_message "server_vad" "g711_ulaw"
          "g711_ulaw" "whisper-1",
        ModelMsg.convItemCreate "user" "Please begin by greeting the user.",
        ModelMsg.responseCreate ] := by
  simp [media_stream_connect, h, initMessages]

/-- C6 witness: the registered "abc123" session yields the three messages
with voice "alloy" and instructions "Be friendly". -/
theorem C6_three_init_messages_witness :
    lookupSettings demoRegistry "abc123" = some demoSettings ∧
    (media_stream_connect demoRegistry "abc123" true).initMsgs =
      [ ModelMsg.sessionUpdate "alloy" "Be friendly" "server_vad" "g711_ulaw"
          "g711_ulaw" "whisper-1",
        ModelMsg.convItemCreate "user" "Please begin by greeting the user.",
        ModelMsg.responseCreate ] :=
  ⟨by decide, C6_three_init_messages demoRegistry "abc123" demoSettings (by decide)⟩

/-- C4 counterexample: `media_stream` reads the registry entry with
`STREAMS_SETTINGS.get(session_id)` and never removes or marks it, so after
a first relay connection for "abc123" a second connection still finds the
entry — refuting the claim that every entry is consumed exactly once and a
second connection finds no entry. -/
theorem C4_entry_not_consumed_counterexample :
    lookupSettings (media_stream_connect demoRegistry "abc123" true).registryAfter "abc123"
        = some demoSettings ∧
    ¬ lookupSettings (media_stream_connect demoRegistry "abc123" true).registryAfter "abc123"
        = none := by
  constructor
  · decide
  · decide

/-- C4 (amended): a registry entry is read when the relay attaches but is
never removed or marked consumed: the registry is left unchanged, and a
second relay connection for the same session id finds the same entry. -/
theorem C4_registry_never_consumed (reg : List (String × Settings)) (sid : String)
    (hs : Bool) (st : Settings) (h : lookupSettings reg sid = some st) :
    (media_stream_connect reg sid hs).registryAfter = reg ∧
    lookupSettings (media_stream_connect reg sid hs).registryAfter sid = some st := by
  rcases hs <;> simp [media_stream_connect, h]

/-- C4 witness: the "abc123" entry survives its first connection. -/
theorem C4_registry_never_consumed_witness :
    (media_stream_connect demoRegistry "abc123" true).registryAfter = demoRegistry ∧
    lookupSettings (media_stream_connect demoRegistry "abc123" true).registryAfter "abc123"
      = some demoSettings :=
  C4_registry_never_consumed demoRegistry "abc123" true demoSettings (by decide)

/-- C3: for any interleaving whose deltas decode, (a) the inbound pump
forwards exactly the `media` payloads, verbatim (hence with identical
decoded bytes) and in arrival order; (b) the outbound pump forwards exactly
the truthy `audio.delta` payloads decoded and re-encoded, in arrival order;
(c) re-encoding decoded bytes is lossless: the forwarded payload decodes to
the same bytes as the original delta. -/
theorem C3_in_order_lossless_forwarding (es : List (TwilioEvt ⊕ OpenAIEvt))
    (h : deltasOk es = true) :
    (runRelay es).toOpenAI = es.filterMap inPayload ∧
    (runRelay es).toTwilio.map MediaFrame.payload = es.filterMap outPayload ∧
    (∀ d bs, b64decode d = some bs → b64decode (b64encode bs) = some bs) := by
  refine ⟨?_, ?_, ?_⟩
  · simpa [initialRelayState] using foldl_toOpenAI es initialRelayState
  · simpa [initialRelayState] using
      foldl_toTwilio es initialRelayState (deltasOk_mem h) rfl
  · exact fun d bs hd => b64_roundtrip bs (b64decode_lt hd)

/-- C3 witness: a concrete interleaving of two media frames and one
audio delta. -/
theorem C3_in_order_lossless_forwarding_witness :
    deltasOk demoInterleaving = true ∧
    (runRelay demoInterleaving).toOpenAI = demoInterleaving.filterMap inPayload ∧
    (runRelay demoInterleaving).toTwilio.map MediaFrame.payload
      = demoInterleaving.filterMap outPayload :=
  ⟨by decide, (C3_in_order_lossless_forwarding demoInterleaving (by decide)).1,
    (C3_in_order_lossless_forwarding demoInterleaving (by decide)).2.1⟩

/-- C7: transcript entries are appended in completion-event arrival order,
tagged `user:` / `assistant:`; and on the two events user "Hello" then
assistant "Hi there", joining with newlines yields exactly
"user: Hello\nassistant: Hi there". -/
theorem C7_transcript_order_and_join (es : List (TwilioEvt ⊕ OpenAIEvt))
    (h : deltasOk es = true) :
    (runRelay es).transcript = es.filterMap entryOf ∧
    String.intercalate "\n" (runRelay demoTranscriptEvents).transcript
      = "user: Hello\nassistant: Hi there" := by
  constructor
  · simpa [initialRelayState] using
      foldl_transcript es initialRelayState (deltasOk_mem h) rfl
  · decide

/-- C7 witness: the two-completion-event scenario itself. -/
theorem C7_transcript_order_and_join_witness :
    deltasOk demoTranscriptEvents = true ∧
    (runRelay demoTranscriptEvents).transcript = demoTranscriptEvents.filterMap entryOf ∧
    String.intercalate "\n" (runRelay demoTranscriptEvents).transcript
      = "user: Hello\nassistant: Hi there" :=
  ⟨by decide, (C7_transcript_order_and_join demoTranscriptEvents (by decide)).1,
    (C7_transcript_order_and_join demoTranscriptEvents (by decide)).2⟩

/-- C10: when no `start` event has been observed, forwarded outbound media
frames still go out and carry `streamSid = none`: every frame produced from
a start-free interleaving has a null stream id, and a lone decodable
non-empty delta is forwarded as exactly one frame with `streamSid = none`. -/
theorem C10_delta_before_start_null_sid (es : List (TwilioEvt ⊕ OpenAIEvt))
    (h : noStart es = true) (d : List Char) (bs : List Nat)
    (hd : b64decode d = some bs) (hne : d ≠ []) :
    (∀ f ∈ (runRelay es).toTwilio, f.streamSid = none) ∧
    (runRelay [Sum.inr (OpenAIEvt.audioDelta d)]).toTwilio
      = [{ streamSid := none, payload := b64encode bs }] := by
  constructor
  · exact foldl_sid_none es initialRelayState (noStart_mem h) rfl
      (by simp [initialRelayState])
  · simp [runRelay, relayStep, initialRelayState, stepOpenAI, hd, hne]

/-- C10 witness: a lone delta "AQID" (bytes 1,2,3) before any start. -/
theorem C10_delta_before_start_null_sid_witness :
    noStart [Sum.inr (OpenAIEvt.audioDelta "AQID".toList)] = true ∧
    b64decode "AQID".toList = some [1, 2, 3] ∧
    (runRelay [Sum.inr (OpenAIEvt.audioDelta "AQID".toList)]).toTwilio
      = [{ streamSid := none, payload := b64encode [1, 2, 3] }] :=
  ⟨by decide, by decide,
    (C10_delta_before_start_null_sid [Sum.inr (OpenAIEvt.audioDelta "AQID".toList)]
      (by decide) "AQID".toList [1, 2, 3] (by decide) (by decide)).2⟩

/-- C8: with an empty transcript (no completion events), the summary is the
fixed placeholder, the LLM is never invoked, and `send_summary_email` is
called with that placeholder. -/
theorem C8_empty_transcript_placeholder (llm : String → Except String String)
    (cfg : EmailConfig) (deliver : String → String → Except String Nat) (st : Settings) :
    (postProcess llm cfg deliver st []).summary = "No conversation content to summarize." ∧
    (postProcess llm cfg deliver st []).llmCalled = false ∧
    (postProcess llm cfg deliver st []).emailArgs
      = (st.email, "No conversation content to summarize.") := by
  have hft : stripIsEmpty (String.intercalate "\n" ([] : List String)) = true := rfl
  refine ⟨?_, ?_, ?_⟩ <;> simp [postProcess, summarize_conversation, hft]

/-- C9: when the transcript text is non-empty and the LLM call fails, the
error is caught and replaced by the fixed failure placeholder, and
processing continues to the notification step with that placeholder. -/
theorem C9_summarization_failure_swallowed (llm : String → Except String String)
    (cfg : EmailConfig) (deliver : String → String → Except String Nat) (st : Settings)
    (tr : List String) (e : String)
    (hne : stripIsEmpty (String.intercalate "\n" tr) = false)
    (hf : llm (String.intercalate "\n" tr) = .error e) :
    (postProcess llm cfg deliver st tr).summary = "Sorry, I couldn't generate a summary." ∧
    (postProcess llm cfg deliver st tr).emailArgs
      = (st.email, "Sorry, I couldn't generate a summary.") := by
  constructor <;> simp [postProcess, summarize_conversation, hne, hf]

/-- C9 witness: a one-line transcript and an always-failing LLM. -/
theorem C9_summarization_failure_swallowed_witness :
    stripIsEmpty (String.intercalate "\n" ["user: hi"]) = false ∧
    (postProcess (fun _ => Except.error "boom") missingKeyConfig
        (fun _ _ => Except.ok 202) demoSettings ["user: hi"]).summary
      = "Sorry, I couldn't generate a summary." ∧
    (postProcess (fun _ => Except.error "boom") missingKeyConfig
        (fun _ _ => Except.ok 202) demoSettings ["user: hi"]).emailArgs
      = ("a@example.com", "Sorry, I couldn't generate a summary.") :=
  ⟨by decide,
    (C9_summarization_failure_swallowed (fun _ => Except.error "boom") missingKeyConfig
      (fun _ _ => Except.ok 202) demoSettings ["user: hi"] "boom" (by decide) rfl).1,
    (C9_summarization_failure_swallowed (fun _ => Except.error "boom") missingKeyConfig
      (fun _ _ => Except.ok 202) demoSettings ["user: hi"] "boom" (by decide) rfl).2⟩

/-- C5 counterexample: with the SendGrid key unset the function returns
normally without raising any NotificationError (it only logs a warning and
skips delivery), and with full configuration a failing delivery is caught
and the function still returns normally — refuting the claim that it fails
with a NotificationError in both situations. -/
theorem C5_no_notification_error_counterexample :
    (send_summary_email missingKeyConfig (fun _ _ => Except.ok 202)
        "a@b.test" "sum").outcome = Except.ok () ∧
    (send_summary_email missingKeyConfig (fun _ _ => Except.ok 202)
        "a@b.test" "sum").attempted = false ∧
    (send_summary_email fullEmailConfig (fun _ _ => Except.error "delivery failed")
        "a@b.test" "sum").outcome = Except.ok () := by
  refine ⟨rfl, by decide, rfl⟩

/-- C5 (amended): `send_summary_email` never raises: it returns normally on
every path; when required configuration is absent it skips delivery
entirely, and otherwise it attempts delivery exactly once, swallowing
delivery failures. -/
theorem C5_notification_never_raises (cfg : EmailConfig)
    (deliver : String → String → Except String Nat) (to_email text : String) :
    (send_summary_email cfg deliver to_email text).outcome = Except.ok () ∧
    (missingEmailConfig cfg = true →
      (send_summary_email cfg deliver to_email text).attempted = false) ∧
    (missingEmailConfig cfg = false →
      (send_summary_email cfg deliver to_email text).attempted = true) := by
  by_cases hm : missingEmailConfig cfg = true
  · refine ⟨?_, fun _ => ?_, fun hc => absurd hm (by simp [hc])⟩ <;>
      simp [send_summary_email, hm]
  · rw [Bool.not_eq_true] at hm
    cases hd : deliver to_email text with
    | ok n =>
      refine ⟨?_, fun hc => absurd hc (by simp [hm]), fun _ => ?_⟩ <;>
        simp [send_summary_email, hm, hd]
    | error err =>
      refine ⟨?_, fun hc => absurd hc (by simp [hm]), fun _ => ?_⟩ <;>
        simp [send_summary_email, hm, hd]

/-- C5 witness: missing key configuration returns ok without attempting
delivery. -/
theorem C5_notification_never_raises_witness :
    (send_summary_email missingKeyConfig (fun _ _ => Except.ok 202)
        "w@b.test" "text").outcome = Except.ok () ∧
    (send_summary_email missingKeyConfig (fun _ _ => Except.ok 202)
        "w@b.test" "text").attempted = false :=
  ⟨(C5_notification_never_raises missingKeyConfig (fun _ _ => Except.ok 202)
      "w@b.test" "text").1,
    (C5_notification_never_raises missingKeyConfig (fun _ _ => Except.ok 202)
      "w@b.test" "text").2.1 (by decide)⟩

/-- The C1 claim's temporal requirement transcribed over an action sequence:
summarize and notify each occur exactly once, and some `awaitPendingStop`
action lies after a `cancelPending` and before every `summarizeStep` (the
claim's "requests cancellation of the other pump and awaits its stop before
entering the drain/summarize/notify stages").  This definition follows the
claim's words, to be compared against `mediaStreamBody`, which follows the
source. -/
def claimC1Shape (s : List RelayAction) : Prop :=
  s.count .summarizeStep = 1 ∧ s.count .notifyStep = 1 ∧
  ∃ j : Fin s.length, s.get j = .awaitPendingStop ∧
    (∃ i : Fin s.length, (i : Nat) < (j : Nat) ∧ s.get i = .cancelPending) ∧
    (∀ k : Fin s.length, s.get k = .summarizeStep → (j : Nat) < (k : Nat))

/-- C1 counterexample: the post-streaming body of `media_stream` cancels the
pending pump (`task.cancel()`, line 198) but contains no `await` of the
cancelled task before closing the model socket and summarizing, so the
claim's required shape fails on the program's actual action sequence. -/
theorem C1_no_await_of_cancelled_pump_counterexample :
    ¬ claimC1Shape mediaStreamBody := by
  unfold claimC1Shape
  decide

/-- C1 (amended): summarization and notification each occur exactly once per
call, after the first pump completes (`asyncio.wait` with FIRST_COMPLETED)
and after cancellation of the other pump is requested — but the relay does
not await the cancelled pump's stop before entering the drain / summarize /
notify stages. -/
theorem C1_postprocessing_once_after_cancel_request :
    mediaStreamBody.count RelayAction.summarizeStep = 1 ∧
    mediaStreamBody.count RelayAction.notifyStep = 1 ∧
    mediaStreamBody.indexOf RelayAction.awaitFirstCompleted
      < mediaStreamBody.indexOf RelayAction.cancelPending ∧
    mediaStreamBody.indexOf RelayAction.cancelPending
      < mediaStreamBody.indexOf RelayAction.closeModelSocket ∧
    mediaStreamBody.indexOf RelayAction.closeModelSocket
      < mediaStreamBody.indexOf RelayAction.summarizeStep ∧
    mediaStreamBody.indexOf RelayAction.summarizeStep
      < mediaStreamBody.indexOf RelayAction.notifyStep ∧
    RelayAction.awaitPendingStop ∉ mediaStreamBody := by decide
